import Mathlib

/-!
Shallow embedding of the localizethedocs flyout widget: the URL resolver
`getTargetUrl`, the flyout renderer and its visibility state machine from
`createFlyout`, and the static configuration from `ltd-config.js`.
JavaScript strings are modelled as lists of characters; the JavaScript
`String.prototype.replace` with a string pattern (replace the first
occurrence only, expanding the `$`-escapes of the replacement string)
is modelled by `jsReplace`.
-/

/-- JavaScript strings, modelled as lists of characters. -/
abbrev Str := List Char

/-- Embed a Lean string literal into the model. -/
def str (s : String) : Str := s.data

/-- The backquote character, special in JavaScript replacement strings. -/
def backquoteChar : Char := Char.ofNat 96

/-- The single-quote character, special in JavaScript replacement strings. -/
def quoteChar : Char := Char.ofNat 39

/-- Expansion of a replacement string, following the ECMAScript
GetSubstitution algorithm for a string pattern: dollar-dollar yields a
dollar sign, dollar-ampersand the matched substring, dollar-backquote the
part of the subject before the match, dollar-quote the part after it;
every other character is copied literally. -/
def expandRepl (matched before after : Str) : Str → Str
  | [] => []
  | c :: rest =>
    if c = '$' then
      match rest with
      | [] => ['$']
      | d :: rest2 =>
        if d = '$' then '$' :: expandRepl matched before after rest2
        else if d = '&' then matched ++ expandRepl matched before after rest2
        else if d = backquoteChar then before ++ expandRepl matched before after rest2
        else if d = quoteChar then after ++ expandRepl matched before after rest2
        else '$' :: d :: expandRepl matched before after rest2
    else c :: expandRepl matched before after rest

/-- The first occurrence of `pat` in a string, returned as the pieces
before and after that occurrence; `none` when `pat` does not occur. -/
def splitFirst (pat : Str) : Str → Option (Str × Str)
  | [] => if pat.isPrefixOf ([] : Str) then some ([], []) else none
  | c :: rest =>
    if pat.isPrefixOf (c :: rest) then some ([], (c :: rest).drop pat.length)
    else (splitFirst pat rest).map (fun p => (c :: p.1, p.2))

/-- JavaScript `s.replace(pat, repl)` with a string pattern: replaces only
the first occurrence of `pat`, expanding the `$`-escapes of `repl`;
returns `s` unchanged when `pat` does not occur. -/
def jsReplace (s pat repl : Str) : Str :=
  match splitFirst pat s with
  | none => s
  | some (pre, suf) => pre ++ expandRepl pat pre suf repl ++ suf

/-- Whether `pat` occurs as a contiguous substring of `s`. -/
def containsSeg (s pat : Str) : Bool := (splitFirst pat s).isSome

/-- The page-load environment the script reads (`window.location`,
`document.currentScript`, `current.js`): current language and version
codes, the page path, the server origin, the directory the flyout script
was loaded from, and whether the page is viewed over `file:`. -/
structure NavContext where
  isLocal : Bool
  currentLanguage : Str
  currentVersion : Str
  currentPath : Str
  serverRoot : Str
  flyoutJsDir : Str
deriving DecidableEq

/-- Outcome of the `fetch(targetUrl, \x7b method: "HEAD" \x7d)` probe: a
response with some HTTP status, or a rejection (network failure). -/
inductive ProbeOutcome where
  | response (status : Nat) : ProbeOutcome
  | failure : ProbeOutcome
deriving DecidableEq

/-- JavaScript `Response.ok`: the status is in the 2xx range. -/
def responseOk (status : Nat) : Bool := 200 ≤ status && status ≤ 299

/-- Interpolation of a possibly-undefined value into a template literal:
JavaScript stringifies `undefined` to the text `"undefined"`. -/
def jsTemplateStr : Option Str → Str
  | some s => s
  | none => str "undefined"

/-- A code wrapped in path separators, as in the template literals
`/${code}/` of `getTargetUrl`. -/
def sepWrap (code : Str) : Str := str "/" ++ code ++ str "/"

/-- The substitution step of `getTargetUrl` (lines 26-34): replace the
segment holding the current code of the requested axis by the selected
value; `targetPath` stays `undefined` for an unknown axis string. -/
def targetPath (ctx : NavContext) (type selectedValue : Str) : Option Str :=
  if type = str "language" then
    some (jsReplace ctx.currentPath (sepWrap ctx.currentLanguage) (sepWrap selectedValue))
  else if type = str "version" then
    some (jsReplace ctx.currentPath (sepWrap ctx.currentVersion) (sepWrap selectedValue))
  else none

/-- The candidate URL of `getTargetUrl` (lines 37-39): a `file://` URL
locally, otherwise the server origin followed by the substituted path. -/
def targetUrl (ctx : NavContext) (type selectedValue : Str) : Str :=
  if ctx.isLocal then str "file://" ++ jsTemplateStr (targetPath ctx type selectedValue)
  else ctx.serverRoot ++ jsTemplateStr (targetPath ctx type selectedValue)

/-- The fallback URL of `getTargetUrl` (lines 60-62): the flyout script's
directory, the selected or current language, the selected or current
version, then `index.html`. -/
def fallbackUrl (ctx : NavContext) (type selectedValue : Str) : Str :=
  ctx.flyoutJsDir ++ str "/" ++
  (if type = str "language" then selectedValue else ctx.currentLanguage) ++ str "/" ++
  (if type = str "version" then selectedValue else ctx.currentVersion) ++ str "/index.html"

/-- `getTargetUrl(type, selectedValue)` (lines 25-63), with the HEAD
probe supplied as an oracle from URLs to outcomes: locally the candidate
URL is returned at once; otherwise it is probed, kept on a 2xx response,
and replaced by the fallback URL on a non-2xx response or a network
failure. -/
def getTargetUrl (ctx : NavContext) (probe : Str → ProbeOutcome)
    (type selectedValue : Str) : Str :=
  let url := targetUrl ctx type selectedValue
  if ctx.isLocal then url
  else
    match probe url with
    | ProbeOutcome.response status =>
        if responseOk status then url else fallbackUrl ctx type selectedValue
    | ProbeOutcome.failure => fallbackUrl ctx type selectedValue

/-- The current code of the requested axis: the current language for the
`"language"` axis, the current version for the `"version"` axis. -/
def currentCode (ctx : NavContext) (type : Str) : Str :=
  if type = str "language" then ctx.currentLanguage else ctx.currentVersion

/-! ### Flyout rendering (`createFlyout`, lines 73-85) -/

/-- The reserved sentinel code/label. -/
def newlineStr : Str := str "newline"

/-- One `<option>` row of a selector (lines 73-79): the code as the value,
the `selected` attribute exactly when the code equals the current code of
that axis, and `code : name` as the visible text. -/
def renderOption (cur : Str) (e : Str × Str) : Str :=
  str "<option value=\"" ++ e.1 ++ str "\" " ++
  (if e.1 = cur then str "selected" else str "") ++
  str ">" ++ e.1 ++ str " : " ++ e.2 ++ str "</option>"

/-- The rows of a selector: the configuration list with sentinel entries
filtered out, each remaining entry rendered, in order (lines 73-79; the
language and version pipelines are textually identical). -/
def selectOptions (cfg : List (Str × Str)) (cur : Str) : List Str :=
  (cfg.filter (fun e => e.1 ≠ newlineStr)).map (renderOption cur)

/-- One project row (lines 81-85): a sentinel label becomes a layout-break
`<dd>`, anything else a `<dd>` holding an anchor to the project URL. -/
def renderProject (e : Str × Str) : Str :=
  if e.1 = newlineStr then str "<dd class=\"newline\"></dd>"
  else str "<dd class=\"options\"><a href=\"" ++ e.2 ++ str "\">" ++ e.1 ++ str "</a></dd>"

/-- The project rows, one per configuration entry, in order (line 81). -/
def sortedProjects (cfg : List (Str × Str)) : List Str :=
  cfg.map renderProject

/-! ### Flyout visibility state machine (`createFlyout`, lines 97-98 and
146-170).  The four class-list bits the handlers touch: whether content
and divider carry `ltd-flyout-closed`, whether the label carries
`hidden`, and whether the header carries `ltd-icon-only`. -/

structure FlyoutState where
  contentClosed : Bool
  dividerClosed : Bool
  labelHidden : Bool
  headerIconOnly : Bool
deriving DecidableEq

/-- The widget as first inserted (lines 97-98): divider and content both
carry `ltd-flyout-closed`; the label is visible. -/
def initialFlyoutState : FlyoutState :=
  { contentClosed := true, dividerClosed := true,
    labelHidden := false, headerIconOnly := false }

/-- The label click handler (lines 147-151): toggle the closed class on
the content and force the divider's closed class to the same value. -/
def labelClickStep (s : FlyoutState) : FlyoutState :=
  let isHidden := !s.contentClosed
  { s with contentClosed := isHidden, dividerClosed := isHidden }

/-- The icon click handler (lines 154-162): toggle the label's hidden
class, mirror it on the header's icon-only class, and when the label is
now hidden also close content and divider. -/
def iconClickStep (s : FlyoutState) : FlyoutState :=
  let labelHidden := !s.labelHidden
  if labelHidden then
    { s with labelHidden := labelHidden, headerIconOnly := labelHidden,
             contentClosed := true, dividerClosed := true }
  else
    { s with labelHidden := labelHidden, headerIconOnly := labelHidden }

/-- The document click handler (lines 165-170): when the click target is
outside the flyout subtree, close content and divider; otherwise do
nothing. -/
def documentClickStep (insideFlyout : Bool) (s : FlyoutState) : FlyoutState :=
  if insideFlyout then s
  else { s with contentClosed := true, dividerClosed := true }

/-- Whether the content panel is shown. -/
def contentExpanded (s : FlyoutState) : Bool := !s.contentClosed

/-- Whether the header label is shown. -/
def labelVisible (s : FlyoutState) : Bool := !s.labelHidden

/-- The states the widget can reach from its initial render.  A label
click requires the label to be visible: the stylesheet rule
`.ltd-flyout-header-label.hidden \x7b display: none \x7d` (addStyles,
lines 240-242) removes a hidden label from layout, so it receives no
clicks.  Document clicks carry whether the target lay inside the
flyout subtree; the widget's own handlers stop propagation. -/
inductive Reachable : FlyoutState → Prop where
  | init : Reachable initialFlyoutState
  | labelClick {s : FlyoutState} : Reachable s → s.labelHidden = false →
      Reachable (labelClickStep s)
  | iconClick {s : FlyoutState} : Reachable s → Reachable (iconClickStep s)
  | docClick {s : FlyoutState} (insideFlyout : Bool) : Reachable s →
      Reachable (documentClickStep insideFlyout s)

/-! ### The static configuration shipped in `ltd-config.js` -/

def CONFIG_LANGUAGES : List (Str × Str) :=
  [(str "en-us", str "English"),
   (str "zh-cn", str "简体中文"),
   (str "zh-tw", str "繁體中文")]

def CONFIG_VERSIONS : List (Str × Str) :=
  [(str "master", str "Development"),
   (str "latest", str "Latest Release"),
   (str "stable", str "Stable Release"),
   (str "3.9", str "Release 3.9"),
   (str "3.9", str "Release 3.9"),
   (str "3.8", str "Release 3.8"),
   (str "3.7", str "Release 3.7"),
   (str "3.6", str "Release 3.6"),
   (str "3.5", str "Release 3.5"),
   (str "3.4", str "Release 3.4"),
   (str "3.3", str "Release 3.3"),
   (str "3.2", str "Release 3.2"),
   (str "3.1", str "Release 3.1"),
   (str "3.0", str "Release 3.0")]

def CONFIG_PROJECTS : List (Str × Str) :=
  [(str "Index", str "https://projects.localizethedocs.org"),
   (str "Crowdin", str "https://localizethedocs.crowdin.com/demo-docs-l10n"),
   (str "GitHub", str "https://github.com/localizethedocs/demo-docs-l10n"),
   (str "GitCode", str "https://gitcode.com/localizethedocs/demo-docs-l10n"),
   (str "GitFlic", str "https://gitflic.ru/project/localizethedocs/demo-docs-l10n")]

/-- A concrete navigation context for witnesses: the served demo page
`/en-us/latest/guide.html`. -/
def demoContext : NavContext :=
  { isLocal := false,
    currentLanguage := str "en-us",
    currentVersion := str "latest",
    currentPath := str "/en-us/latest/guide.html",
    serverRoot := str "https://docs.example.org",
    flyoutJsDir := str "https://docs.example.org/flyout" }

/-- The demo context viewed from a local filesystem. -/
def demoLocalContext : NavContext :=
  { demoContext with isLocal := true }

/-- A context whose page path holds neither current-code segment, for the
substitution no-op witness. -/
def demoNoSegContext : NavContext :=
  { demoContext with currentPath := str "/fr-fr/guide.html" }

/-! ### Helper lemmas about the string model -/

/-- Helper: a replacement string without a dollar sign expands to
itself. -/
theorem expandRepl_eq_self (m b a : Str) (repl : Str) (h : '$' ∉ repl) :
    expandRepl m b a repl = repl := by
  induction repl with
  | nil => rfl
  | cons c rest ih =>
    have hc : ¬(c = '$') := fun hc => h (hc ▸ List.mem_cons_self c rest)
    have hr : '$' ∉ rest := fun hm => h (List.mem_cons_of_mem c hm)
    rw [expandRepl.eq_def]
    simp only [if_neg hc]
    rw [ih hr]

/-- Helper: when the first occurrence of `pat` starts right after `a`,
`splitFirst` splits the string into `a` and `b`. -/
theorem splitFirst_append (pat a b : Str) (hne : pat ≠ [])
    (hfirst : ∀ j, j < a.length →
      pat.isPrefixOf ((a ++ (pat ++ b)).drop j) = false) :
    splitFirst pat (a ++ (pat ++ b)) = some (a, b) := by
  induction a with
  | nil =>
    obtain ⟨p, pt, rfl⟩ := List.exists_cons_of_ne_nil hne
    have hpre : (p :: pt).isPrefixOf (p :: (pt ++ b)) = true :=
      List.isPrefixOf_iff_prefix.mpr (by simp)
    simp only [List.nil_append, List.cons_append]
    rw [splitFirst, if_pos hpre]
    simp [List.length_cons, List.drop_succ_cons, List.drop_left]
  | cons x a ih =>
    have h0 : pat.isPrefixOf (x :: (a ++ (pat ++ b))) = false := by
      have := hfirst 0 (by simp)
      simpa using this
    have hrest : ∀ j, j < a.length →
        pat.isPrefixOf ((a ++ (pat ++ b)).drop j) = false := by
      intro j hj
      have := hfirst (j + 1) (by simp; omega)
      simpa [List.drop_succ_cons] using this
    simp only [List.cons_append]
    rw [splitFirst, if_neg (by simp [h0]), ih hrest]
    rfl

/-- Helper: `jsReplace` rewrites exactly the first occurrence of the
pattern when the replacement carries no dollar escape. -/
theorem jsReplace_append (pat a b repl : Str) (hne : pat ≠ [])
    (hfirst : ∀ j, j < a.length →
      pat.isPrefixOf ((a ++ (pat ++ b)).drop j) = false)
    (hrepl : '$' ∉ repl) :
    jsReplace (a ++ (pat ++ b)) pat repl = a ++ (repl ++ b) := by
  rw [jsReplace, splitFirst_append pat a b hne hfirst]
  show a ++ expandRepl pat a b repl ++ b = a ++ (repl ++ b)
  rw [expandRepl_eq_self _ _ _ _ hrepl, List.append_assoc]

/-- Helper: `jsReplace` is the identity when the pattern does not
occur. -/
theorem jsReplace_of_not_contains (s pat repl : Str)
    (h : containsSeg s pat = false) : jsReplace s pat repl = s := by
  have hnone : splitFirst pat s = none := by
    cases hs : splitFirst pat s with
    | none => rfl
    | some p => rw [containsSeg, hs] at h; simp at h
  rw [jsReplace, hnone]

/-- Helper: a string of the shape `a ++ pat ++ b` contains `pat`. -/
theorem containsSeg_append (pat a b : Str) (hne : pat ≠ []) :
    containsSeg (a ++ (pat ++ b)) pat = true := by
  induction a with
  | nil =>
    obtain ⟨p, pt, rfl⟩ := List.exists_cons_of_ne_nil hne
    have hpre : (p :: pt).isPrefixOf (p :: (pt ++ b)) = true :=
      List.isPrefixOf_iff_prefix.mpr (by simp)
    simp only [List.nil_append, List.cons_append, containsSeg]
    rw [splitFirst, if_pos hpre]
    rfl
  | cons x a ih =>
    simp only [List.cons_append, containsSeg]
    by_cases hp : pat.isPrefixOf (x :: (a ++ (pat ++ b))) = true
    · rw [splitFirst, if_pos hp]
      rfl
    · obtain ⟨pr, hpr⟩ : ∃ pr, splitFirst pat (a ++ (pat ++ b)) = some pr :=
        Option.isSome_iff_exists.mp (by simpa [containsSeg] using ih)
      rw [splitFirst, if_neg hp, hpr]
      rfl

/-- Helper: for a known axis, the substitution step is the replacement of
the axis's current-code segment in the current path. -/
theorem targetPath_eq (ctx : NavContext) (type sel : Str)
    (haxis : type = str "language" ∨ type = str "version") :
    targetPath ctx type sel =
      some (jsReplace ctx.currentPath (sepWrap (currentCode ctx type))
        (sepWrap sel)) := by
  have h1 : str "version" ≠ str "language" := by decide
  rcases haxis with h | h <;> subst h
  · simp [targetPath, currentCode]
  · simp [targetPath, currentCode, h1]

/-- Helper: in every reachable state the divider's closed class equals
the content's closed class. -/
theorem reachable_divider_eq_content {s : FlyoutState} (h : Reachable s) :
    s.dividerClosed = s.contentClosed := by
  induction h with
  | init => rfl
  | labelClick hr hvis ih => simp [labelClickStep]
  | iconClick hr ih =>
    rename_i s'
    cases hb : s'.labelHidden
    · simp [iconClickStep, hb]
    · simpa [iconClickStep, hb] using ih
  | docClick inside hr ih =>
    cases inside
    · simp [documentClickStep]
    · simpa [documentClickStep] using ih

/-- Helper: in every reachable state a hidden label forces closed
content. -/
theorem reachable_hidden_closed {s : FlyoutState} (h : Reachable s) :
    s.labelHidden = true → s.contentClosed = true := by
  induction h with
  | init => intro hh; simp [initialFlyoutState] at hh
  | labelClick hr hvis ih =>
    intro hh
    simp [labelClickStep, hvis] at hh
  | iconClick hr ih =>
    rename_i s'
    cases hb : s'.labelHidden
    · simp [iconClickStep, hb]
    · simp [iconClickStep, hb]
  | docClick inside hr ih =>
    cases inside
    · simp [documentClickStep]
    · simpa [documentClickStep] using ih

/-! ### Claim theorems: URL resolver -/

/-- C1: for either axis, when the current page path contains the current
code of that axis wrapped in path separators, the substitution step of
`getTargetUrl` yields the path with exactly that (first such) segment
replaced by the selected code, the surrounding pieces `a` and `b` kept
unchanged — also when the segment occurs several times (later
occurrences lie in `b`) and when the two axes share a code.  Selected
codes are configuration codes, which contain no dollar replacement
escape. -/
theorem c1_targetPath_substitutes (ctx : NavContext) (type sel a b : Str)
    (haxis : type = str "language" ∨ type = str "version")
    (hpath : ctx.currentPath = a ++ (sepWrap (currentCode ctx type) ++ b))
    (hfirst : ∀ j, j < a.length →
      (sepWrap (currentCode ctx type)).isPrefixOf (ctx.currentPath.drop j) = false)
    (hsel : '$' ∉ sel) :
    targetPath ctx type sel = some (a ++ (sepWrap sel ++ b)) := by
  have hne : sepWrap (currentCode ctx type) ≠ [] := by simp [sepWrap, str]
  have hrepl : '$' ∉ sepWrap sel := by
    intro hm
    rcases List.mem_append.mp hm with h1 | h1
    · rcases List.mem_append.mp h1 with h2 | h2
      · simp [str] at h2
      · exact hsel h2
    · simp [str] at h1
  rw [targetPath_eq ctx type sel haxis, hpath]
  rw [jsReplace_append _ _ _ _ hne (by rw [← hpath]; exact hfirst) hrepl]

/-- C1 witness: switching the demo page `/en-us/latest/guide.html` to
version `3.9` substitutes the version segment. -/
theorem c1_witness :
    (str "version" = str "language" ∨ str "version" = str "version") ∧
    targetPath demoContext (str "version") (str "3.9")
      = some (str "/en-us" ++ (sepWrap (str "3.9") ++ str "guide.html")) :=
  ⟨Or.inr rfl,
   c1_targetPath_substitutes demoContext (str "version") (str "3.9")
     (str "/en-us") (str "guide.html")
     (Or.inr rfl) (by decide) (by decide) (by decide)⟩

/-- C2: in a served context, a 2xx probe of the substituted URL makes
`getTargetUrl` return exactly that URL (the origin followed by the
substituted path); a non-2xx response and a thrown probe both land in the
same fallback, the flyout asset directory followed by the selected code
on the requested axis, the current code on the other axis, and
`index.html`. -/
theorem c2_served_probe (ctx : NavContext) (probe : Str → ProbeOutcome)
    (type sel : Str)
    (_haxis : type = str "language" ∨ type = str "version")
    (hserved : ctx.isLocal = false) :
    (∀ p status, targetPath ctx type sel = some p →
       probe (ctx.serverRoot ++ p) = ProbeOutcome.response status →
       responseOk status = true →
       getTargetUrl ctx probe type sel = ctx.serverRoot ++ p) ∧
    (∀ status, probe (targetUrl ctx type sel) = ProbeOutcome.response status →
       responseOk status = false →
       getTargetUrl ctx probe type sel =
         ctx.flyoutJsDir ++ str "/" ++
         (if type = str "language" then sel else ctx.currentLanguage) ++ str "/" ++
         (if type = str "version" then sel else ctx.currentVersion) ++ str "/index.html") ∧
    (probe (targetUrl ctx type sel) = ProbeOutcome.failure →
       getTargetUrl ctx probe type sel =
         ctx.flyoutJsDir ++ str "/" ++
         (if type = str "language" then sel else ctx.currentLanguage) ++ str "/" ++
         (if type = str "version" then sel else ctx.currentVersion) ++ str "/index.html") := by
  refine ⟨?_, ?_, ?_⟩
  · intro p status hp hprobe hok
    have hu : targetUrl ctx type sel = ctx.serverRoot ++ p := by
      simp [targetUrl, hserved, hp, jsTemplateStr]
    rw [getTargetUrl, if_neg (by simp [hserved]), hu, hprobe]
    simp [hok]
  · intro status hprobe hnok
    rw [getTargetUrl, if_neg (by simp [hserved]), hprobe]
    simp [hnok, fallbackUrl]
  · intro hprobe
    rw [getTargetUrl, if_neg (by simp [hserved]), hprobe]
    simp [fallbackUrl]

/-- C2 witness: a 404 probe on the served demo context falls back to
`<asset-dir>/en-us/3.9/index.html`. -/
theorem c2_witness :
    demoContext.isLocal = false ∧
    getTargetUrl demoContext (fun _ => ProbeOutcome.response 404)
      (str "version") (str "3.9") =
      demoContext.flyoutJsDir ++ str "/" ++
      (if str "version" = str "language" then str "3.9"
       else demoContext.currentLanguage) ++ str "/" ++
      (if str "version" = str "version" then str "3.9"
       else demoContext.currentVersion) ++ str "/index.html" :=
  ⟨rfl,
   (c2_served_probe demoContext (fun _ => ProbeOutcome.response 404)
     (str "version") (str "3.9") (Or.inr rfl) rfl).2.1 404 rfl (by decide)⟩

/-- C3: in a local filesystem context `getTargetUrl` returns a
`file://`-prefixed URL built from the substituted path, and the result
does not depend on the probe oracle at all: no probe is consulted. -/
theorem c3_local_no_probe (ctx : NavContext)
    (probe probe2 : Str → ProbeOutcome) (type sel : Str)
    (haxis : type = str "language" ∨ type = str "version")
    (hlocal : ctx.isLocal = true) :
    (∃ p, targetPath ctx type sel = some p ∧
       getTargetUrl ctx probe type sel = str "file://" ++ p) ∧
    getTargetUrl ctx probe type sel = getTargetUrl ctx probe2 type sel := by
  have hp := targetPath_eq ctx type sel haxis
  constructor
  · exact ⟨_, hp, by rw [getTargetUrl, if_pos (by simp [hlocal])]
                     simp [targetUrl, hlocal, hp, jsTemplateStr]⟩
  · rw [getTargetUrl, getTargetUrl, if_pos (by simp [hlocal]),
        if_pos (by simp [hlocal])]

/-- C3 witness: the local demo context resolves `zh-cn` to a `file://`
URL, identically for an always-failing and an always-succeeding probe. -/
theorem c3_witness :
    demoLocalContext.isLocal = true ∧
    (∃ p, targetPath demoLocalContext (str "language") (str "zh-cn") = some p ∧
       getTargetUrl demoLocalContext (fun _ => ProbeOutcome.failure)
         (str "language") (str "zh-cn") = str "file://" ++ p) ∧
    getTargetUrl demoLocalContext (fun _ => ProbeOutcome.failure)
        (str "language") (str "zh-cn")
      = getTargetUrl demoLocalContext (fun _ => ProbeOutcome.response 200)
        (str "language") (str "zh-cn") :=
  ⟨rfl,
   c3_local_no_probe demoLocalContext (fun _ => ProbeOutcome.failure)
     (fun _ => ProbeOutcome.response 200) (str "language") (str "zh-cn")
     (Or.inl rfl) rfl⟩

/-- C4: `getTargetUrl` always returns a URL — the candidate URL or the
fallback URL — for every probe outcome; in particular a network-layer
probe failure is swallowed and converted to the fallback value, never
surfaced to the caller. -/
theorem c4_total_no_throw (ctx : NavContext) (probe : Str → ProbeOutcome)
    (type sel : Str)
    (_haxis : type = str "language" ∨ type = str "version") :
    (getTargetUrl ctx probe type sel = targetUrl ctx type sel ∨
     getTargetUrl ctx probe type sel = fallbackUrl ctx type sel) ∧
    (ctx.isLocal = false →
       probe (targetUrl ctx type sel) = ProbeOutcome.failure →
       getTargetUrl ctx probe type sel = fallbackUrl ctx type sel) := by
  constructor
  · by_cases hl : ctx.isLocal
    · left
      rw [getTargetUrl, if_pos (by simp [hl])]
    · cases hpr : probe (targetUrl ctx type sel) with
      | response status =>
        by_cases hok : responseOk status = true
        · left
          rw [getTargetUrl, if_neg (by simp [hl]), hpr]
          simp [hok]
        · right
          have hnok : responseOk status = false := by
            simpa using hok
          rw [getTargetUrl, if_neg (by simp [hl]), hpr]
          simp [hnok]
      | failure =>
        right
        rw [getTargetUrl, if_neg (by simp [hl]), hpr]
  · intro hl hpr
    rw [getTargetUrl, if_neg (by simp [hl]), hpr]

/-- C4 witness: with a throwing probe the served demo context yields the
fallback URL. -/
theorem c4_witness :
    (getTargetUrl demoContext (fun _ => ProbeOutcome.failure)
        (str "language") (str "zh-cn")
      = targetUrl demoContext (str "language") (str "zh-cn") ∨
     getTargetUrl demoContext (fun _ => ProbeOutcome.failure)
        (str "language") (str "zh-cn")
      = fallbackUrl demoContext (str "language") (str "zh-cn")) ∧
    (demoContext.isLocal = false →
       (fun _ => ProbeOutcome.failure)
         (targetUrl demoContext (str "language") (str "zh-cn"))
         = ProbeOutcome.failure →
       getTargetUrl demoContext (fun _ => ProbeOutcome.failure)
           (str "language") (str "zh-cn")
         = fallbackUrl demoContext (str "language") (str "zh-cn")) :=
  c4_total_no_throw demoContext (fun _ => ProbeOutcome.failure)
    (str "language") (str "zh-cn") (Or.inl rfl)

/-- C5: when the current path does not contain the requested axis's
current code wrapped in path separators, the substitution step returns
the path unchanged, and the candidate URL embeds that unmodified path in
the `file://` prefix or the origin as appropriate. -/
theorem c5_substitution_noop (ctx : NavContext) (type sel : Str)
    (haxis : type = str "language" ∨ type = str "version")
    (hmiss : containsSeg ctx.currentPath (sepWrap (currentCode ctx type)) = false) :
    targetPath ctx type sel = some ctx.currentPath ∧
    targetUrl ctx type sel =
      (if ctx.isLocal then str "file://" ++ ctx.currentPath
       else ctx.serverRoot ++ ctx.currentPath) := by
  have h1 : targetPath ctx type sel = some ctx.currentPath := by
    rw [targetPath_eq ctx type sel haxis,
        jsReplace_of_not_contains _ _ _ hmiss]
  refine ⟨h1, ?_⟩
  by_cases hl : ctx.isLocal <;> simp [targetUrl, h1, jsTemplateStr, hl]

/-- C5 witness: the path `/fr-fr/guide.html` holds no `/en-us/` segment,
so selecting language `zh-cn` keeps the path unchanged. -/
theorem c5_witness :
    containsSeg demoNoSegContext.currentPath
      (sepWrap (currentCode demoNoSegContext (str "language"))) = false ∧
    targetPath demoNoSegContext (str "language") (str "zh-cn")
      = some demoNoSegContext.currentPath ∧
    targetUrl demoNoSegContext (str "language") (str "zh-cn")
      = (if demoNoSegContext.isLocal
         then str "file://" ++ demoNoSegContext.currentPath
         else demoNoSegContext.serverRoot ++ demoNoSegContext.currentPath) :=
  ⟨by decide,
   c5_substitution_noop demoNoSegContext (str "language") (str "zh-cn")
     (Or.inl rfl) (by decide)⟩

/-- C10: calling `getTargetUrl` with an axis string other than
`"language"` or `"version"` leaves the substituted path undefined, so the
constructed URL is the `file://` prefix or the origin followed by the
literal text `undefined`; the function still returns without throwing —
in the served branch it probes that malformed URL, keeps it on success,
and otherwise falls back to the asset directory with both current
codes. -/
theorem c10_unknown_axis (ctx : NavContext) (probe : Str → ProbeOutcome)
    (type sel : Str)
    (hlang : type ≠ str "language") (hver : type ≠ str "version") :
    targetPath ctx type sel = none ∧
    (ctx.isLocal = true →
       getTargetUrl ctx probe type sel = str "file://" ++ str "undefined") ∧
    (ctx.isLocal = false →
       targetUrl ctx type sel = ctx.serverRoot ++ str "undefined" ∧
       (∀ status,
          probe (ctx.serverRoot ++ str "undefined") = ProbeOutcome.response status →
          responseOk status = true →
          getTargetUrl ctx probe type sel = ctx.serverRoot ++ str "undefined") ∧
       (∀ status,
          probe (ctx.serverRoot ++ str "undefined") = ProbeOutcome.response status →
          responseOk status = false →
          getTargetUrl ctx probe type sel =
            ctx.flyoutJsDir ++ str "/" ++ ctx.currentLanguage ++ str "/" ++
            ctx.currentVersion ++ str "/index.html") ∧
       (probe (ctx.serverRoot ++ str "undefined") = ProbeOutcome.failure →
          getTargetUrl ctx probe type sel =
            ctx.flyoutJsDir ++ str "/" ++ ctx.currentLanguage ++ str "/" ++
            ctx.currentVersion ++ str "/index.html")) := by
  have htp : targetPath ctx type sel = none := by
    rw [targetPath, if_neg hlang, if_neg hver]
  have hfb : fallbackUrl ctx type sel =
      ctx.flyoutJsDir ++ str "/" ++ ctx.currentLanguage ++ str "/" ++
      ctx.currentVersion ++ str "/index.html" := by
    rw [fallbackUrl, if_neg hlang, if_neg hver]
  refine ⟨htp, ?_, ?_⟩
  · intro hl
    rw [getTargetUrl, if_pos (by simp [hl]), targetUrl, if_pos (by simp [hl]),
        htp]
    rfl
  · intro hl
    have hu : targetUrl ctx type sel = ctx.serverRoot ++ str "undefined" := by
      rw [targetUrl, if_neg (by simp [hl]), htp]
      rfl
    refine ⟨hu, ?_, ?_, ?_⟩
    · intro status hprobe hok
      rw [getTargetUrl, if_neg (by simp [hl]), hu, hprobe]
      simp [hok]
    · intro status hprobe hnok
      rw [getTargetUrl, if_neg (by simp [hl]), hu, hprobe]
      simp [hnok, hfb]
    · intro hprobe
      rw [getTargetUrl, if_neg (by simp [hl]), hu, hprobe]
      simp [hfb]

/-- C10 witness: the axis string `"bogus"` on the local demo context
yields `file://undefined`. -/
theorem c10_witness :
    targetPath demoLocalContext (str "bogus") (str "zh-cn") = none ∧
    getTargetUrl demoLocalContext (fun _ => ProbeOutcome.failure)
      (str "bogus") (str "zh-cn") = str "file://" ++ str "undefined" :=
  ⟨(c10_unknown_axis demoLocalContext (fun _ => ProbeOutcome.failure)
      (str "bogus") (str "zh-cn") (by decide) (by decide)).1,
   (c10_unknown_axis demoLocalContext (fun _ => ProbeOutcome.failure)
      (str "bogus") (str "zh-cn") (by decide) (by decide)).2.1 rfl⟩

/-! ### Claim theorems: flyout rendering and state machine -/

/-- C6: every rendered selector row comes from a non-sentinel
configuration entry (a `"newline"` sentinel is never a selectable
option); the rendered entries are the non-sentinel entries in exactly
configuration order (the filtered list is an order-preserving sublist and
every non-sentinel entry is rendered); a row whose code equals the
current code of its axis carries the `selected` attribute; a sentinel
project entry renders as the layout-break `<dd>` only, holding no anchor;
and the project rows follow the configuration one for one. -/
theorem c6_render_sentinels (cfgL cfgV cfgP : List (Str × Str))
    (curL curV : Str) :
    (∀ o ∈ selectOptions cfgL curL,
       ∃ e, e ∈ cfgL ∧ e.1 ≠ newlineStr ∧ o = renderOption curL e) ∧
    (∀ o ∈ selectOptions cfgV curV,
       ∃ e, e ∈ cfgV ∧ e.1 ≠ newlineStr ∧ o = renderOption curV e) ∧
    List.Sublist (cfgL.filter (fun e => e.1 ≠ newlineStr)) cfgL ∧
    List.Sublist (cfgV.filter (fun e => e.1 ≠ newlineStr)) cfgV ∧
    (∀ e ∈ cfgL, e.1 ≠ newlineStr →
       renderOption curL e ∈ selectOptions cfgL curL) ∧
    (∀ e ∈ cfgV, e.1 ≠ newlineStr →
       renderOption curV e ∈ selectOptions cfgV curV) ∧
    (∀ e : Str × Str, e.1 = curL →
       containsSeg (renderOption curL e) (str " selected>") = true) ∧
    (∀ e ∈ cfgP, e.1 = newlineStr →
       renderProject e = str "<dd class=\"newline\"></dd>" ∧
       containsSeg (renderProject e) (str "<a href=") = false) ∧
    (sortedProjects cfgP).length = cfgP.length := by
  refine ⟨?_, ?_, List.filter_sublist cfgL, List.filter_sublist cfgV,
    ?_, ?_, ?_, ?_, ?_⟩
  · intro o ho
    rcases List.mem_map.mp ho with ⟨e, he, rfl⟩
    rcases List.mem_filter.mp he with ⟨he1, he2⟩
    exact ⟨e, he1, by simpa using he2, rfl⟩
  · intro o ho
    rcases List.mem_map.mp ho with ⟨e, he, rfl⟩
    rcases List.mem_filter.mp he with ⟨he1, he2⟩
    exact ⟨e, he1, by simpa using he2, rfl⟩
  · intro e he hne
    exact List.mem_map_of_mem _ (List.mem_filter.mpr ⟨he, by simpa using hne⟩)
  · intro e he hne
    exact List.mem_map_of_mem _ (List.mem_filter.mpr ⟨he, by simpa using hne⟩)
  · intro e heq
    have h1 : renderOption curL e =
        (str "<option value=\"" ++ e.1 ++ str "\"") ++
        (str " selected>" ++
          (e.1 ++ str " : " ++ e.2 ++ str "</option>")) := by
      rw [renderOption, if_pos heq]
      simp only [List.append_assoc]
      rfl
    rw [h1]
    exact containsSeg_append _ _ _ (by decide)
  · intro e _ heq
    refine ⟨by rw [renderProject, if_pos heq], ?_⟩
    rw [renderProject, if_pos heq]
    decide
  · exact List.length_map cfgP renderProject

/-- C6 witness: on the shipped configuration with current language
`en-us`, the `en-us` row is rendered among the options and carries the
`selected` attribute. -/
theorem c6_witness :
    renderOption (str "en-us") (str "en-us", str "English")
      ∈ selectOptions CONFIG_LANGUAGES (str "en-us") ∧
    containsSeg (renderOption (str "en-us") (str "en-us", str "English"))
      (str " selected>") = true :=
  ⟨(c6_render_sentinels CONFIG_LANGUAGES CONFIG_VERSIONS CONFIG_PROJECTS
      (str "en-us") (str "latest")).2.2.2.2.1
      (str "en-us", str "English") (by decide) (by decide),
   (c6_render_sentinels CONFIG_LANGUAGES CONFIG_VERSIONS CONFIG_PROJECTS
      (str "en-us") (str "latest")).2.2.2.2.2.2.1
      (str "en-us", str "English") (by decide)⟩

/-- C7: clicking the header icon while the label is visible hides the
label and forces the content (and divider) closed even if previously
expanded; a second icon click restores the label but leaves the content
closed; and in every reachable state a hidden label implies collapsed
content. -/
theorem c7_icon_click (s : FlyoutState) (_reach : Reachable s)
    (hvis : labelVisible s = true) :
    labelVisible (iconClickStep s) = false ∧
    contentExpanded (iconClickStep s) = false ∧
    (iconClickStep s).dividerClosed = true ∧
    labelVisible (iconClickStep (iconClickStep s)) = true ∧
    contentExpanded (iconClickStep (iconClickStep s)) = false ∧
    ∀ s2, Reachable s2 → labelVisible s2 = false → contentExpanded s2 = false := by
  have hlab : s.labelHidden = false := by simpa [labelVisible] using hvis
  refine ⟨?_, ?_, ?_, ?_, ?_, ?_⟩
  · simp [iconClickStep, hlab, labelVisible]
  · simp [iconClickStep, hlab, contentExpanded]
  · simp [iconClickStep, hlab]
  · simp [iconClickStep, hlab, labelVisible]
  · simp [iconClickStep, hlab, contentExpanded]
  · intro s2 h2 hl2
    have := reachable_hidden_closed h2 (by simpa [labelVisible] using hl2)
    simp [contentExpanded, this]

/-- C7 witness: from the initial state, one icon click hides the label
and keeps the content closed, a second restores the label with the
content still closed. -/
theorem c7_witness :
    labelVisible initialFlyoutState = true ∧
    labelVisible (iconClickStep initialFlyoutState) = false ∧
    contentExpanded (iconClickStep initialFlyoutState) = false ∧
    labelVisible (iconClickStep (iconClickStep initialFlyoutState)) = true ∧
    contentExpanded (iconClickStep (iconClickStep initialFlyoutState)) = false :=
  have h := c7_icon_click initialFlyoutState Reachable.init (by decide)
  ⟨by decide, h.1, h.2.1, h.2.2.2.1, h.2.2.2.2.1⟩

/-- C8: a click outside the widget forces the content closed and leaves
the label untouched; the handler is idempotent, and on a reachable state
whose content is already collapsed it changes nothing at all. -/
theorem c8_outside_click (s : FlyoutState) (hs : Reachable s) :
    contentExpanded (documentClickStep false s) = false ∧
    labelVisible (documentClickStep false s) = labelVisible s ∧
    documentClickStep false (documentClickStep false s)
      = documentClickStep false s ∧
    (contentExpanded s = false → documentClickStep false s = s) := by
  refine ⟨?_, ?_, ?_, ?_⟩
  · simp [documentClickStep, contentExpanded]
  · simp [documentClickStep, labelVisible]
  · simp [documentClickStep]
  · intro hc
    have hcc : s.contentClosed = true := by simpa [contentExpanded] using hc
    have hdc : s.dividerClosed = true := by
      rw [reachable_divider_eq_content hs, hcc]
    cases s
    simp_all [documentClickStep]

/-- C8 witness: an outside click on the initial (collapsed) state leaves
it unchanged, and the handler is idempotent there. -/
theorem c8_witness :
    contentExpanded (documentClickStep false initialFlyoutState) = false ∧
    documentClickStep false (documentClickStep false initialFlyoutState)
      = documentClickStep false initialFlyoutState ∧
    documentClickStep false initialFlyoutState = initialFlyoutState :=
  have h := c8_outside_click initialFlyoutState Reachable.init
  ⟨h.1, h.2.2.1, h.2.2.2 (by decide)⟩

/-- C9: in the initial rendered state the divider and the content panel
both carry the closed marker, and in every reachable state the divider's
closed class equals the content panel's closed class — the divider is
visible exactly when the content is expanded. -/
theorem c9_divider_mirrors_content (s : FlyoutState) (hs : Reachable s) :
    s.dividerClosed = s.contentClosed ∧
    initialFlyoutState.contentClosed = true ∧
    initialFlyoutState.dividerClosed = true :=
  ⟨reachable_divider_eq_content hs, rfl, rfl⟩

/-- C9 witness: the invariant instantiated at the state reached by
expanding the content with a label click from the initial state. -/
theorem c9_witness :
    (labelClickStep initialFlyoutState).dividerClosed
      = (labelClickStep initialFlyoutState).contentClosed ∧
    initialFlyoutState.contentClosed = true ∧
    initialFlyoutState.dividerClosed = true :=
  c9_divider_mirrors_content (labelClickStep initialFlyoutState)
    (Reachable.labelClick Reachable.init (by decide))
